import Mathlib

/-!
# Verification of the message-formatter form component

Shallow embedding of `src/App.tsx` from the `message-formatter-extension`
repository. The component keeps five pieces of state (`inputMessage`,
`outputMessage`, `loading`, `mode`, `customInstruction`), builds a
chat-completion request from a fixed template, issues one network call and
writes the trimmed reply (or a fixed failure string) back into the state.

The network is modelled by an explicit `FetchResult` argument describing what
the single `fetch` call returned; `handleSubmit` becomes a pure function from
the pre-submission state and that result to the post-submission state, paired
with the request body it issued (`none` when the empty-input guard rejected
the submission before any call).
-/

namespace MessageFormatter

/-- The fixed system directive, `SYSTEM_MESSAGE` in `App.tsx` (a backquoted
template literal: it starts and ends with a newline, and the blank line before
the final paragraph carries three spaces). -/
def SYSTEM_MESSAGE : String :=
  "\nYou are a message formatter AI. Your task is to transform any input text into a polished, professional message suitable for client communication, strictly following the provided instructions.\n\n**Guardrails**:\n\n1. **Instruction Fidelity**:\n   - Adhere strictly to the instructions given in each prompt without deviation.\n   - Avoid overriding, disregarding, or adding to the instructions unless explicitly directed to do so by the prompt.\n   - If unclear or conflicting information is present, prioritize clarity and professionalism, but do not invent or assume details beyond the prompt\x27s content.\n   - Always respect the communication mode specified (e.g., Email, Chat) and format the response accordingly.\n\n2. **Input Clarity**:\n   - If the input text does not provide a coherent or meaningful message, or if it lacks necessary information, prompt the user for a clearer, more complete input.\n   \nYour goal is to consistently produce output that aligns exactly with the provided instructions, ensuring the response remains professional and suitable for client communication.\n"

/-- The user-message template, `AI_PROMPT` in `App.tsx`: a template literal
embedding the raw input and the instruction text verbatim. -/
def AI_PROMPT (userInput : String) (modeInstruction : String) : String :=
  "\nRaw Input Text: " ++ userInput ++
  "\n\nInstructions:\n" ++ modeInstruction ++
  "\nOutput Goal:\n- Provide a clear, concise, and professionally rephrased message suitable for client communication.\n- Ensure the message is error-free, respectful, and easy to understand.\n"

/-- The read-only catalogue `MODE_INSTRUCTIONS` of `App.tsx`, embedded as a
lookup from the mode name: the TS object has exactly the four keys below, and
indexing with any other key yields `undefined`, here `none`. -/
def MODE_INSTRUCTIONS (mode : String) : Option String :=
  if mode = "Email" then
    some "Compose a formal, professionally-worded email, including appropriate greetings and closing remarks for client communication."
  else if mode = "Chat" then
    some "Compose a friendly, concise chat message that’s suitable for instant messaging with a client. Use a warm, approachable greeting, and keep the tone polite yet slightly informal."
  else if mode = "Report" then
    some "Create a structured, professional report with key points organized clearly, suitable for client presentation."
  else if mode = "Notification" then
    some "Draft a concise and polite notification, focusing on essential details and clarity, suitable for quick client updates."
  else
    none

/-- The fallback instruction used when `MODE_INSTRUCTIONS[mode]` is falsy. -/
def defaultInstruction : String :=
  "Provide a polite, professional message appropriate for client communication."

/-- The fixed failure string shown on any caught error. -/
def errorMessage : String :=
  "Sorry, something went wrong. Please try again."

/-- JavaScript `String.prototype.trim`: removes leading and trailing
whitespace. Embedded structurally on the character sequence (the whitespace
class is the ASCII one, which covers every character these claims exercise). -/
def jsTrim (s : String) : String :=
  ⟨((s.data.dropWhile Char.isWhitespace).reverse.dropWhile Char.isWhitespace).reverse⟩

/-- `getModeInstruction` from `App.tsx`. The source reads `mode` and
`customInstruction` from component state; here they are passed explicitly.
`MODE_INSTRUCTIONS[mode] || default` falls back when the lookup is `undefined`
(or an empty string, which `||` also treats as falsy), and
`customInstruction ? a : b` tests string truthiness, i.e. non-emptiness. -/
def getModeInstruction (mode : String) (customInstruction : String) : String :=
  let baseInstruction :=
    if (MODE_INSTRUCTIONS mode).getD "" = "" then defaultInstruction
    else (MODE_INSTRUCTIONS mode).getD ""
  if customInstruction = "" then baseInstruction
  else baseInstruction ++ " " ++ customInstruction

/-- One chat message of the request payload. -/
structure ChatMessage where
  role : String
  content : String
deriving DecidableEq, Repr

/-- The JSON request body built by `handleSubmit` (`JSON.stringify` argument).
The sampling temperature `0.5` is kept as an exact rational. -/
structure RequestBody where
  model : String
  messages : List ChatMessage
  max_tokens : Nat
  temperature : ℚ
deriving DecidableEq, Repr

/-- The component state of `App`: the five `useState` cells. `mode` is kept as
a raw string because `handleModeChange` casts an arbitrary DOM value into it. -/
structure FormState where
  inputMessage : String
  outputMessage : String
  loading : Bool
  mode : String
  customInstruction : String
deriving DecidableEq, Repr

/-- What the single `fetch` of `handleSubmit` produced.
* `ok content?` — a 2xx response whose body parsed as JSON; `content?` is
  `some c` when `data.choices[0].message.content` is the string `c`, and
  `none` when the body deviates from that shape (the access then throws).
* `notOk` — a non-2xx status (`response.ok` false, `throw new Error(...)`).
* `fetchError` — `fetch` (or reading the body) itself threw. -/
inductive FetchResult where
  | ok (content? : Option String)
  | notOk
  | fetchError
deriving DecidableEq, Repr

/-- The request body assembled inside the `fetch` call of `handleSubmit`. -/
def buildRequestBody (s : FormState) : RequestBody :=
  { model := "gpt-4"
    messages :=
      [ { role := "system", content := SYSTEM_MESSAGE }
      , { role := "user"
          content := AI_PROMPT s.inputMessage
            (getModeInstruction s.mode s.customInstruction) } ]
    max_tokens := 1000
    temperature := 0.5 }

/-- The prefix of `handleSubmit` up to (and including) issuing the request:
`none` when the empty-input guard `if (!inputMessage.trim()) return` fires;
otherwise the state as it stands while the call is awaited (`loading` set to
`true`, `outputMessage` cleared), paired with the request body sent. -/
def handleSubmitStep (s : FormState) : Option (FormState × RequestBody) :=
  if jsTrim s.inputMessage = "" then none
  else some ({ s with loading := true, outputMessage := "" }, buildRequestBody s)

/-- The resumption of `handleSubmit` after the awaited call settles: the
`try`/`catch` writes either the trimmed content or the fixed failure string
into `outputMessage`, and the `finally` resets `loading`. -/
def handleResponse (s : FormState) (r : FetchResult) : FormState :=
  match r with
  | .ok (some c) => { s with outputMessage := jsTrim c, loading := false }
  | .ok none => { s with outputMessage := errorMessage, loading := false }
  | .notOk => { s with outputMessage := errorMessage, loading := false }
  | .fetchError => { s with outputMessage := errorMessage, loading := false }

/-- `handleSubmit` end to end: final state and the request issued, if any. -/
def handleSubmit (s : FormState) (r : FetchResult) : FormState × Option RequestBody :=
  match handleSubmitStep s with
  | none => (s, none)
  | some (s1, req) => (handleResponse s1 r, some req)

/-- `needle` occurs verbatim inside `haystack`. -/
def ContainsSubstring (needle haystack : String) : Prop :=
  ∃ u v, haystack = u ++ needle ++ v

end MessageFormatter
namespace MessageFormatter

/-- C1: when `inputMessage` trims to empty, `handleSubmit` issues no network
call and leaves `outputMessage` unchanged. -/
theorem submit_empty_input_no_call (s : FormState) (r : FetchResult)
    (h : jsTrim s.inputMessage = "") :
    (handleSubmit s r).2 = none ∧
    (handleSubmit s r).1.outputMessage = s.outputMessage := by
  simp [handleSubmit, handleSubmitStep, h]

theorem submit_empty_input_no_call_witness :
    jsTrim "\n\t" = "" ∧
    (handleSubmit ⟨"\n\t", "previous", false, "Email", ""⟩ FetchResult.notOk).2 = none ∧
    (handleSubmit ⟨"\n\t", "previous", false, "Email", ""⟩ FetchResult.notOk).1.outputMessage
      = "previous" :=
  ⟨by decide,
    submit_empty_input_no_call ⟨"\n\t", "previous", false, "Email", ""⟩ FetchResult.notOk
      (by decide)⟩

/-- C2: for each of the four enumerated modes, `getModeInstruction` returns
exactly the catalogue entry when `customInstruction` is empty, and the entry,
a single space, and `customInstruction` when it is non-empty. -/
theorem getModeInstruction_enumerated (m c : String)
    (hm : m = "Email" ∨ m = "Chat" ∨ m = "Report" ∨ m = "Notification") :
    ∃ e, MODE_INSTRUCTIONS m = some e ∧
      getModeInstruction m "" = e ∧
      (c ≠ "" → getModeInstruction m c = e ++ " " ++ c) := by
  rcases hm with h | h | h | h <;> subst h <;>
    exact ⟨_, rfl, rfl, fun hc => by
      simp [getModeInstruction, MODE_INSTRUCTIONS, defaultInstruction, hc]⟩

theorem getModeInstruction_enumerated_witness :
    ∃ e, MODE_INSTRUCTIONS "Chat" = some e ∧
      getModeInstruction "Chat" "" = e ∧
      ("Use emojis." ≠ "" → getModeInstruction "Chat" "Use emojis." = e ++ " " ++ "Use emojis.") :=
  getModeInstruction_enumerated "Chat" "Use emojis." (Or.inr (Or.inl rfl))

/-- C3: for any mode outside the four enumerated keys, `getModeInstruction`
falls back to the fixed generic instruction, suffixed by a space and the
custom instruction when that is non-empty. -/
theorem getModeInstruction_fallback (m c : String)
    (h1 : m ≠ "Email") (h2 : m ≠ "Chat") (h3 : m ≠ "Report") (h4 : m ≠ "Notification") :
    getModeInstruction m ""
      = "Provide a polite, professional message appropriate for client communication." ∧
    (c ≠ "" → getModeInstruction m c
      = "Provide a polite, professional message appropriate for client communication."
        ++ " " ++ c) := by
  constructor
  · simp [getModeInstruction, MODE_INSTRUCTIONS, defaultInstruction, h1, h2, h3, h4]
  · intro hc
    simp [getModeInstruction, MODE_INSTRUCTIONS, defaultInstruction, h1, h2, h3, h4, hc]

theorem getModeInstruction_fallback_witness :
    getModeInstruction "Slack" ""
      = "Provide a polite, professional message appropriate for client communication." ∧
    ("Be brief." ≠ "" → getModeInstruction "Slack" "Be brief."
      = "Provide a polite, professional message appropriate for client communication."
        ++ " " ++ "Be brief.") :=
  getModeInstruction_fallback "Slack" "Be brief."
    (by decide) (by decide) (by decide) (by decide)

/-- C4: on a 2xx response whose body has `choices[0].message.content` a string,
`handleSubmit` stores that content trimmed and resets `loading`. -/
theorem submit_success_sets_trimmed_output (s : FormState) (c : String)
    (h : jsTrim s.inputMessage ≠ "") :
    (handleSubmit s (FetchResult.ok (some c))).1.outputMessage = jsTrim c ∧
    (handleSubmit s (FetchResult.ok (some c))).1.loading = false := by
  simp [handleSubmit, handleSubmitStep, handleResponse, h]

theorem submit_success_sets_trimmed_output_witness :
    jsTrim "please review" ≠ "" ∧
    (handleSubmit ⟨"please review", "", false, "Email", ""⟩
        (FetchResult.ok (some " Hello, client. "))).1.outputMessage = "Hello, client." ∧
    (handleSubmit ⟨"please review", "", false, "Email", ""⟩
        (FetchResult.ok (some " Hello, client. "))).1.loading = false := by
  have h := submit_success_sets_trimmed_output ⟨"please review", "", false, "Email", ""⟩
    " Hello, client. " (by decide)
  exact ⟨by decide, by rw [h.1]; decide, h.2⟩

/-- C5: on any failing submission — non-2xx status, thrown network error, or a
body deviating from the expected shape — `handleSubmit` stores the fixed
failure string and resets `loading`. -/
theorem submit_failure_sets_error (s : FormState) (r : FetchResult)
    (h : jsTrim s.inputMessage ≠ "")
    (hr : r = FetchResult.notOk ∨ r = FetchResult.fetchError ∨ r = FetchResult.ok none) :
    (handleSubmit s r).1.outputMessage = "Sorry, something went wrong. Please try again." ∧
    (handleSubmit s r).1.loading = false := by
  rcases hr with h' | h' | h' <;> subst h' <;>
    simp [handleSubmit, handleSubmitStep, handleResponse, errorMessage, h]

theorem submit_failure_sets_error_witness :
    jsTrim "please review" ≠ "" ∧
    (handleSubmit ⟨"please review", "old", false, "Report", ""⟩
        FetchResult.notOk).1.outputMessage
      = "Sorry, something went wrong. Please try again." ∧
    (handleSubmit ⟨"please review", "old", false, "Report", ""⟩
        FetchResult.notOk).1.loading = false :=
  ⟨by decide,
    submit_failure_sets_error ⟨"please review", "old", false, "Report", ""⟩
      FetchResult.notOk (by decide) (Or.inl rfl)⟩

/-- C6: when the guard passes, the state observable while the call is awaited
has `loading = true` and `outputMessage = ""` (the prior output is cleared
before the request), and the final state is computed from that intermediate
state. -/
theorem submit_clears_output_before_request (s : FormState)
    (h : jsTrim s.inputMessage ≠ "") :
    handleSubmitStep s
      = some ({ s with loading := true, outputMessage := "" }, buildRequestBody s) ∧
    ∀ r, handleSubmit s r
      = (handleResponse { s with loading := true, outputMessage := "" } r,
          some (buildRequestBody s)) := by
  constructor
  · simp [handleSubmitStep, h]
  · intro r
    simp [handleSubmit, handleSubmitStep, h]

theorem submit_clears_output_before_request_witness :
    handleSubmitStep ⟨"hi", "old output", false, "Chat", ""⟩
      = some (⟨"hi", "", true, "Chat", ""⟩,
          buildRequestBody ⟨"hi", "old output", false, "Chat", ""⟩) ∧
    handleSubmit ⟨"hi", "old output", false, "Chat", ""⟩ FetchResult.fetchError
      = (handleResponse ⟨"hi", "", true, "Chat", ""⟩ FetchResult.fetchError,
          some (buildRequestBody ⟨"hi", "old output", false, "Chat", ""⟩)) :=
  ⟨(submit_clears_output_before_request ⟨"hi", "old output", false, "Chat", ""⟩ (by decide)).1,
    (submit_clears_output_before_request ⟨"hi", "old output", false, "Chat", ""⟩
      (by decide)).2 FetchResult.fetchError⟩

/-- C7: the assembled user-message content embeds the raw input and the
computed instruction verbatim as substrings, with no truncation or escaping. -/
theorem userContent_contains_input_and_instruction (s : FormState) :
    (buildRequestBody s).messages.map ChatMessage.content
      = [SYSTEM_MESSAGE,
          AI_PROMPT s.inputMessage (getModeInstruction s.mode s.customInstruction)] ∧
    ContainsSubstring s.inputMessage
      (AI_PROMPT s.inputMessage (getModeInstruction s.mode s.customInstruction)) ∧
    ContainsSubstring (getModeInstruction s.mode s.customInstruction)
      (AI_PROMPT s.inputMessage (getModeInstruction s.mode s.customInstruction)) := by
  refine ⟨rfl, ⟨"\nRaw Input Text: ", ?_, ?_⟩, ?_⟩
  · exact "\n\nInstructions:\n" ++ getModeInstruction s.mode s.customInstruction ++
      "\nOutput Goal:\n- Provide a clear, concise, and professionally rephrased message suitable for client communication.\n- Ensure the message is error-free, respectful, and easy to understand.\n"
  · simp [AI_PROMPT, String.append_assoc]
  · refine ⟨"\nRaw Input Text: " ++ s.inputMessage ++ "\n\nInstructions:\n",
      "\nOutput Goal:\n- Provide a clear, concise, and professionally rephrased message suitable for client communication.\n- Ensure the message is error-free, respectful, and easy to understand.\n",
      ?_⟩
    simp [AI_PROMPT, String.append_assoc]

/-- C8: every issued request body has model "gpt-4", exactly the two messages
(system directive first, templated user prompt second), max_tokens 1000 and
temperature 0.5. -/
theorem request_body_fields (s : FormState) (r : FetchResult) (req : RequestBody)
    (h : (handleSubmit s r).2 = some req) :
    req.model = "gpt-4" ∧
    req.messages
      = [⟨"system", SYSTEM_MESSAGE⟩,
          ⟨"user", AI_PROMPT s.inputMessage (getModeInstruction s.mode s.customInstruction)⟩] ∧
    req.max_tokens = 1000 ∧
    req.temperature = 0.5 := by
  by_cases hs : jsTrim s.inputMessage = ""
  · simp [handleSubmit, handleSubmitStep, hs] at h
  · simp [handleSubmit, handleSubmitStep, hs] at h
    subst h
    exact ⟨rfl, rfl, rfl, rfl⟩

theorem request_body_fields_witness :
    (buildRequestBody ⟨"hi", "", false, "Email", ""⟩).model = "gpt-4" ∧
    (buildRequestBody ⟨"hi", "", false, "Email", ""⟩).messages
      = [⟨"system", SYSTEM_MESSAGE⟩,
          ⟨"user", AI_PROMPT "hi" (getModeInstruction "Email" "")⟩] ∧
    (buildRequestBody ⟨"hi", "", false, "Email", ""⟩).max_tokens = 1000 ∧
    (buildRequestBody ⟨"hi", "", false, "Email", ""⟩).temperature = 0.5 :=
  request_body_fields ⟨"hi", "", false, "Email", ""⟩ FetchResult.notOk
    (buildRequestBody ⟨"hi", "", false, "Email", ""⟩)
    (by
      have hg : ¬ (jsTrim "hi" = "") := by decide
      simp [handleSubmit, handleSubmitStep, hg])

/-- C9: a submission rejected by the empty-trim guard changes nothing at all:
the state (all five fields, `loading` included) is returned untouched and no
request is issued. -/
theorem submit_empty_input_frame (s : FormState) (r : FetchResult)
    (h : jsTrim s.inputMessage = "") :
    handleSubmit s r = (s, none) := by
  simp [handleSubmit, handleSubmitStep, h]

theorem submit_empty_input_frame_witness :
    jsTrim " " = "" ∧
    handleSubmit ⟨" ", "kept output", false, "Report", "keep it short"⟩
        (FetchResult.ok (some "ignored"))
      = (⟨" ", "kept output", false, "Report", "keep it short"⟩, none) :=
  ⟨by decide,
    submit_empty_input_frame ⟨" ", "kept output", false, "Report", "keep it short"⟩
      (FetchResult.ok (some "ignored")) (by decide)⟩

/-- C10: the request body is a function of `inputMessage`, `mode` and
`customInstruction` alone: two states agreeing on those three fields build
equal bodies (hence byte-identical serializations) and emit the same request,
whatever their `outputMessage` and `loading`. -/
theorem request_depends_only_on_three_fields (s₁ s₂ : FormState) (r₁ r₂ : FetchResult)
    (hin : s₁.inputMessage = s₂.inputMessage) (hm : s₁.mode = s₂.mode)
    (hc : s₁.customInstruction = s₂.customInstruction) :
    buildRequestBody s₁ = buildRequestBody s₂ ∧
    (handleSubmit s₁ r₁).2 = (handleSubmit s₂ r₂).2 := by
  have hb : buildRequestBody s₁ = buildRequestBody s₂ := by
    simp [buildRequestBody, hin, hm, hc]
  refine ⟨hb, ?_⟩
  by_cases hs : jsTrim s₂.inputMessage = ""
  · simp [handleSubmit, handleSubmitStep, hin, hs]
  · simp [handleSubmit, handleSubmitStep, hin, hs, hb]

theorem request_depends_only_on_three_fields_witness :
    buildRequestBody ⟨"hi", "stale output", true, "Email", "x"⟩
      = buildRequestBody ⟨"hi", "", false, "Email", "x"⟩ ∧
    (handleSubmit ⟨"hi", "stale output", true, "Email", "x"⟩ FetchResult.notOk).2
      = (handleSubmit ⟨"hi", "", false, "Email", "x"⟩ (FetchResult.ok (some "y"))).2 :=
  request_depends_only_on_three_fields
    ⟨"hi", "stale output", true, "Email", "x"⟩ ⟨"hi", "", false, "Email", "x"⟩
    FetchResult.notOk (FetchResult.ok (some "y")) rfl rfl rfl

end MessageFormatter
